import Mathlib

/-!
Verification of the bigboy GameBoy emulator core against its
natural-language specification.

The Go source is shallowly embedded: machine integers (`uint8`, `uint16`,
Go `uint`/`int`) become `Nat`/`Int` with explicit wrap-around (`% 256`,
`% 65536`, `% 2^64`) exactly where the Go types wrap; pointer-mutating
helpers become pure functions returning the updated cells.  Definition
names follow the source (`cpuOpAdd`, `cpuOpHalt`, `checkInterrupts`, ...).
-/

namespace Bigboy

/-- Wrap-around modulus of Go's 64-bit `uint` type. -/
def uintMod : Nat := 18446744073709551616

/-- Flag bit for carry, bit 4 of `F` (cpu.go). -/
def carryFlag : Nat := 16

/-- Flag bit for half-carry, bit 5 of `F` (cpu.go). -/
def halfCarryFlag : Nat := 32

/-- Flag bit for subtract, bit 6 of `F` (cpu.go). -/
def subtractFlag : Nat := 64

/-- Flag bit for zero, bit 7 of `F` (cpu.go). -/
def zeroFlag : Nat := 128

/-- Union of the four flag bits (cpu.go `allFlags`). -/
def allFlags : Nat := carryFlag ||| halfCarryFlag ||| subtractFlag ||| zeroFlag

/-- util.go `setBit`: set or clear bit `b` of the byte `w`.
Go's `^mask` on `uint8` is modelled as `255 ^^^ mask`. -/
def setBit (w : Nat) (b : Nat) (s : Bool) : Nat :=
  if s then w ||| (1 <<< b) else w &&& (255 ^^^ (1 <<< b))

/-- util.go `getBit`: test bit `b` of byte `w`. -/
def getBit (w : Nat) (b : Nat) : Bool :=
  w &&& (1 <<< b) != 0

/-- ops.go `cf`: carry flag as a Bool. -/
def cf (f : Nat) : Bool := f &&& carryFlag == carryFlag

/-- ops.go `hf`: half-carry flag as a Bool. -/
def hf (f : Nat) : Bool := f &&& halfCarryFlag == halfCarryFlag

/-- ops.go `sf`: subtract flag as a Bool. -/
def sf (f : Nat) : Bool := f &&& subtractFlag == subtractFlag

/-- ops.go `zf`: zero flag as a Bool. -/
def zf (f : Nat) : Bool := f &&& zeroFlag == zeroFlag

/-- ops.go `setCarryFlag`. -/
def setCarryFlag (f : Nat) (s : Bool) : Nat := setBit f 4 s

/-- ops.go `setHalfCarryFlag`. -/
def setHalfCarryFlag (f : Nat) (s : Bool) : Nat := setBit f 5 s

/-- ops.go `setSubtractFlag`. -/
def setSubtractFlag (f : Nat) (s : Bool) : Nat := setBit f 6 s

/-- ops.go `setZeroFlag`: set Z iff the value is zero. -/
def setZeroFlag (f : Nat) (val : Nat) : Nat := setBit f 7 (val == 0)

/-- ops.go `clearFlags`: `cpu.f &= ^flags` on `uint8`. -/
def clearFlags (f : Nat) (flags : Nat) : Nat := f &&& (255 ^^^ flags)

/-- ops.go `setAF`: `cpu.a, cpu.f = uint8(value>>8), uint8(value&0xf0)`.
Returns the pair `(a, f)`. -/
def setAF (value : Nat) : Nat × Nat :=
  ((value >>> 8) &&& 255, value &&& 0xf0)

/-- ops.go `cpuOpAdd`: 8-bit add (with optional carry) of `value` into the
cell holding `reg`; returns the new cell value and the new `F`. -/
def cpuOpAdd (reg value : Nat) (carry : Bool) (f : Nat) : Nat × Nat :=
  let c : Nat := if carry && cf f then 1 else 0
  let rn := reg + value + c
  let rh := (reg &&& 0xf) + (value &&& 0xf) + c
  let reg' := rn % 256
  let f' := setCarryFlag
    (setHalfCarryFlag (setZeroFlag (clearFlags f subtractFlag) reg') (rh > 0x0f))
    (rn > 0xff)
  (reg', f')

/-- ops.go `cpuOpSub`: 8-bit subtract (with optional borrow); Go's
`uint(*reg) - uint(value) - uint(c)` wraps at 2^64 and the `uint8`
nibble difference wraps at 256. -/
def cpuOpSub (reg value : Nat) (carry : Bool) (f : Nat) : Nat × Nat :=
  let c : Nat := if carry && cf f then 1 else 0
  let rn := (reg + 2 * uintMod - value - c) % uintMod
  let rh := ((reg &&& 0xf) + 512 - (value &&& 0xf) - c) % 256
  let reg' := rn % 256
  let f' := setCarryFlag
    (setHalfCarryFlag (setSubtractFlag (setZeroFlag f reg') true) (rh > 0x0f))
    (rn > 0xff)
  (reg', f')

/-- ops.go `cpuOpAnd`. -/
def cpuOpAnd (reg value : Nat) (f : Nat) : Nat × Nat :=
  let reg' := reg &&& value
  let f' := setHalfCarryFlag
    (setZeroFlag (clearFlags f (subtractFlag ||| carryFlag)) reg') true
  (reg', f')

/-- ops.go `cpuOpXor`. -/
def cpuOpXor (reg value : Nat) (f : Nat) : Nat × Nat :=
  let reg' := reg ^^^ value
  let f' := setZeroFlag
    (clearFlags f (subtractFlag ||| carryFlag ||| halfCarryFlag)) reg'
  (reg', f')

/-- ops.go `cpuOpOr`. -/
def cpuOpOr (reg value : Nat) (f : Nat) : Nat × Nat :=
  let reg' := reg ||| value
  let f' := setZeroFlag
    (clearFlags f (subtractFlag ||| carryFlag ||| halfCarryFlag)) reg'
  (reg', f')

/-- ops.go `cpuOpCompare`: subtract into a scratch copy, keeping `reg`. -/
def cpuOpCompare (reg value : Nat) (f : Nat) : Nat :=
  (cpuOpSub reg value false f).2

/-- ops.go `cpuOpIncrement`. -/
def cpuOpIncrement (reg : Nat) (f : Nat) : Nat × Nat :=
  let reg' := (reg + 1) % 256
  let f' := setHalfCarryFlag
    (setZeroFlag (clearFlags f (zeroFlag ||| subtractFlag ||| halfCarryFlag)) reg')
    (reg' &&& 0xf == 0)
  (reg', f')

/-- ops.go `cpuOpDecrement`. -/
def cpuOpDecrement (reg : Nat) (f : Nat) : Nat × Nat :=
  let reg' := (reg + 255) % 256
  let f' := setHalfCarryFlag
    (setZeroFlag (setSubtractFlag (clearFlags f (zeroFlag ||| halfCarryFlag)) true) reg')
    (reg' &&& 0xf == 0xf)
  (reg', f')

/-- ops.go `cpuOpDecimalAdjust` (DAA). -/
def cpuOpDecimalAdjust (reg : Nat) (f : Nat) : Nat × Nat :=
  let adjC : Nat := 0
  let step : Nat × Nat :=
    if sf f then
      let adj1 := if hf f then adjC ||| 0x06 else adjC
      let adj2 := if cf f then adj1 ||| 0x60 else adj1
      ((reg + 256 - adj2) % 256, adj2)
    else
      let adj1 := if hf f || decide ((reg &&& 0xf) > 0x9) then adjC ||| 0x06 else adjC
      let adj2 := if cf f || decide (reg > 0x99) then adj1 ||| 0x60 else adj1
      ((reg + adj2) % 256, adj2)
  let reg' := step.1
  let adj := step.2
  let f' := setCarryFlag (setZeroFlag (clearFlags f halfCarryFlag) reg') (adj ≥ 0x60)
  (reg', f')

/-- ops.go `cpuOpBitwiseComplement` (CPL). -/
def cpuOpBitwiseComplement (reg : Nat) (f : Nat) : Nat × Nat :=
  (reg ^^^ 0xff, setHalfCarryFlag (setSubtractFlag f true) true)

/-- ops.go `cpuOpSetCarryFlag` (SCF). -/
def cpuOpSetCarryFlag (f : Nat) : Nat :=
  setCarryFlag (clearFlags f (subtractFlag ||| halfCarryFlag)) true

/-- ops.go `cpuOpComplementCarryFlag` (CCF); the carry is read after the
clear, which leaves bit 4 untouched. -/
def cpuOpComplementCarryFlag (f : Nat) : Nat :=
  let f1 := clearFlags f (subtractFlag ||| halfCarryFlag)
  setCarryFlag f1 (!cf f1)

/-- ops.go `cpuOpAddRR`: 16-bit add into the `h`/`l` pair. -/
def cpuOpAddRR (h l value : Nat) (f : Nat) : Nat × Nat × Nat :=
  let hl := (h <<< 8) + l
  let rb := hl + value
  let rn := (hl &&& 0xfff) + (value &&& 0xfff)
  let h' := (rb >>> 8) % 256
  let l' := rb &&& 0xff
  let f' := setCarryFlag
    (setHalfCarryFlag (setSubtractFlag f false) (rn > 0x0fff)) (rb > 0xffff)
  (h', l', f')

/-- ops.go `cpuOpAddSP` (opcode 0xE8, ADD SP,e8): Go computes over `int`
and truncates the sum back to `uint16`.  Returns `(sp, f)`. -/
def cpuOpAddSP (sp : Nat) (value : Int) (f : Nat) : Nat × Nat :=
  let rn : Int := (sp : Int) + value
  let rh : Int := ((sp &&& 0xfff : Nat) : Int) + value
  let sp' : Nat := (rn % 65536).toNat
  let f' := setCarryFlag
    (setHalfCarryFlag (clearFlags f allFlags) (rh > 0x0fff)) (rn > 0xffff)
  (sp', f')

/-- cpu.go dispatch case 0xF8 (LD HL,SP+e8):
`gb.cpu.setHL(uint16(int(cpu.sp) + int(gb.cpuFetchSigned())))`.
Returns `(h, l, f)`; the flags register is not touched by this case. -/
def cpuCase0xF8 (sp : Nat) (value : Int) (f : Nat) : Nat × Nat × Nat :=
  let hl : Nat := (((sp : Int) + value) % 65536).toNat
  ((hl >>> 8) % 256, hl &&& 0xff, f)

/-- ops.go `cpuOpRotateLeft` (RLA-style, no zero flag). -/
def cpuOpRotateLeft (reg : Nat) (f : Nat) : Nat × Nat :=
  let value := (reg <<< 1) ||| (if cf f then 1 else 0)
  let f' := setCarryFlag (clearFlags f allFlags) (reg &&& (1 <<< 7) != 0)
  (value % 256, f')

/-- ops.go `cpuOpRotateRight` (RRA-style, no zero flag). -/
def cpuOpRotateRight (reg : Nat) (f : Nat) : Nat × Nat :=
  let value := (reg >>> 1) ||| (if cf f then 0x80 else 0)
  let f' := setCarryFlag (clearFlags f allFlags) (reg &&& (1 <<< 0) != 0)
  (value % 256, f')

/-- ops.go `cpuOpRotateLeftCarry` (RLCA-style). -/
def cpuOpRotateLeftCarry (reg : Nat) (f : Nat) : Nat × Nat :=
  let value := (reg <<< 1) ||| (reg >>> 7)
  let f' := setCarryFlag (clearFlags f allFlags) (reg &&& (1 <<< 7) != 0)
  (value % 256, f')

/-- ops.go `cpuOpRotateRightCarry` (RRCA-style). -/
def cpuOpRotateRightCarry (reg : Nat) (f : Nat) : Nat × Nat :=
  let value := (reg >>> 1) ||| (reg <<< 7)
  let f' := setCarryFlag (clearFlags f allFlags) (reg &&& (1 <<< 0) != 0)
  (value % 256, f')

/-- ops.go `cpuOpHalt` (opcode 0x76): the PC increment happens before the
`IE & 0x1f` test, so it applies on both paths.  Returns `(pc, halt)`. -/
def cpuOpHalt (pc ie : Nat) (halt : Bool) : Nat × Bool :=
  let pc' := (pc + 1) % 65536
  if ie &&& 0x1f == 0 then (pc', halt) else (pc', true)

/-- ops.go `cpuOpCBRotateLeftCarry` (CB RLC, sets Z). -/
def cpuOpCBRotateLeftCarry (reg : Nat) (f : Nat) : Nat × Nat :=
  let value := (reg <<< 1) ||| (reg >>> 7)
  let f' := setZeroFlag
    (setCarryFlag (clearFlags f allFlags) (reg &&& (1 <<< 7) != 0)) (value % 256)
  (value % 256, f')

/-- ops.go `cpuOpCBRotateRightCarry` (CB RRC, sets Z). -/
def cpuOpCBRotateRightCarry (reg : Nat) (f : Nat) : Nat × Nat :=
  let value := (reg >>> 1) ||| (reg <<< 7)
  let f' := setZeroFlag
    (setCarryFlag (clearFlags f allFlags) (reg &&& (1 <<< 0) != 0)) (value % 256)
  (value % 256, f')

/-- ops.go `cpuOpCBRotateLeft` (CB RL, sets Z). -/
def cpuOpCBRotateLeft (reg : Nat) (f : Nat) : Nat × Nat :=
  let value := (reg <<< 1) ||| (if cf f then 1 else 0)
  let f' := setZeroFlag
    (setCarryFlag (clearFlags f allFlags) (reg &&& (1 <<< 7) != 0)) (value % 256)
  (value % 256, f')

/-- ops.go `cpuOpCBRotateRight` (CB RR, sets Z). -/
def cpuOpCBRotateRight (reg : Nat) (f : Nat) : Nat × Nat :=
  let value := (reg >>> 1) ||| (if cf f then 0x80 else 0)
  let f' := setZeroFlag
    (setCarryFlag (clearFlags f allFlags) (reg &&& (1 <<< 0) != 0)) (value % 256)
  (value % 256, f')

/-- ops.go `cpuOpCBArithmeticShiftLeft` (SLA). -/
def cpuOpCBArithmeticShiftLeft (reg : Nat) (f : Nat) : Nat × Nat :=
  let value := reg <<< 1
  let f' := setZeroFlag
    (setCarryFlag (clearFlags f allFlags) (reg &&& (1 <<< 7) != 0)) (value % 256)
  (value % 256, f')

/-- ops.go `cpuOpCBArithmeticShiftRight` (SRA); `uint8` arithmetic. -/
def cpuOpCBArithmeticShiftRight (reg : Nat) (f : Nat) : Nat × Nat :=
  let value := (reg >>> 1) ||| (reg &&& 0x80)
  let f' := setZeroFlag
    (setCarryFlag (clearFlags f allFlags) (reg &&& (1 <<< 0) != 0)) (value % 256)
  (value % 256, f')

/-- ops.go `cpuOpCBSwap`; the `uint8` shift left wraps at 256. -/
def cpuOpCBSwap (reg : Nat) (f : Nat) : Nat × Nat :=
  let value := ((reg <<< 4) % 256) ||| (reg >>> 4)
  let f' := setZeroFlag (clearFlags f allFlags) (value % 256)
  (value % 256, f')

/-- ops.go `cpuOpCBLogicalShiftRight` (SRL). -/
def cpuOpCBLogicalShiftRight (reg : Nat) (f : Nat) : Nat × Nat :=
  let value := reg >>> 1
  let f' := setZeroFlag
    (setCarryFlag (clearFlags f allFlags) (reg &&& (1 <<< 0) != 0)) (value % 256)
  (value % 256, f')

/-- ops.go `cpuOpCBBit` (BIT b): flags only, the operand is unchanged. -/
def cpuOpCBBit (b : Nat) (reg : Nat) (f : Nat) : Nat :=
  setHalfCarryFlag
    (setZeroFlag (clearFlags f (zeroFlag ||| subtractFlag ||| halfCarryFlag))
      (reg &&& (1 <<< b)))
    true

/-- ops.go `cpuOpCBBitReset` (RES b). -/
def cpuOpCBBitReset (b : Nat) (reg : Nat) : Nat := setBit reg b false

/-- ops.go `cpuOpCBBitSet` (SET b). -/
def cpuOpCBBitSet (b : Nat) (reg : Nat) : Nat := setBit reg b true

/-- Masking preserves a zero low nibble. -/
theorem low4_and (x m : Nat) (hx : x &&& 15 = 0) : (x &&& m) &&& 15 = 0 := by
  rw [Nat.and_assoc, Nat.and_comm m 15, ← Nat.and_assoc, hx, Nat.zero_and]

/-- Or-ing in a value with a zero low nibble preserves a zero low nibble. -/
theorem low4_or (x m : Nat) (hx : x &&& 15 = 0) (hm : m &&& 15 = 0) :
    (x ||| m) &&& 15 = 0 := by
  rw [Nat.and_distrib_right, hx, hm, Nat.zero_or]

/-- `setBit` at a bit position above 3 preserves a zero low nibble. -/
theorem low4_setBit (x b : Nat) (s : Bool) (hx : x &&& 15 = 0)
    (hb : (1 <<< b) &&& 15 = 0) : setBit x b s &&& 15 = 0 := by
  cases s with
  | false => exact low4_and x _ hx
  | true => exact low4_or x _ hx hb

/-- `setCarryFlag` preserves a zero low nibble of `F`. -/
theorem low4_setCarryFlag (x : Nat) (s : Bool) (hx : x &&& 15 = 0) :
    setCarryFlag x s &&& 15 = 0 :=
  low4_setBit x 4 s hx (by decide)

/-- `setHalfCarryFlag` preserves a zero low nibble of `F`. -/
theorem low4_setHalfCarryFlag (x : Nat) (s : Bool) (hx : x &&& 15 = 0) :
    setHalfCarryFlag x s &&& 15 = 0 :=
  low4_setBit x 5 s hx (by decide)

/-- `setSubtractFlag` preserves a zero low nibble of `F`. -/
theorem low4_setSubtractFlag (x : Nat) (s : Bool) (hx : x &&& 15 = 0) :
    setSubtractFlag x s &&& 15 = 0 :=
  low4_setBit x 6 s hx (by decide)

/-- `setZeroFlag` preserves a zero low nibble of `F`. -/
theorem low4_setZeroFlag (x v : Nat) (hx : x &&& 15 = 0) :
    setZeroFlag x v &&& 15 = 0 :=
  low4_setBit x 7 (v == 0) hx (by decide)

/-- `clearFlags` preserves a zero low nibble of `F`. -/
theorem low4_clearFlags (x m : Nat) (hx : x &&& 15 = 0) :
    clearFlags x m &&& 15 = 0 :=
  low4_and x _ hx

/-- Claim C8: for every CPU state whose `F` register has a zero low nibble,
every operation of the source that writes `F` (the ALU, DAA, rotate, shift,
carry-flag and CB bit operations) leaves `F & 0x0F == 0`, and writing the
`AF` pair through `setAF` (POP AF) forces a zero low nibble unconditionally. -/
theorem flagsLowNibbleZero (f : Nat) (hf : f &&& 0x0F = 0) :
    (∀ reg value carry, (cpuOpAdd reg value carry f).2 &&& 0x0F = 0) ∧
    (∀ reg value carry, (cpuOpSub reg value carry f).2 &&& 0x0F = 0) ∧
    (∀ reg value, (cpuOpAnd reg value f).2 &&& 0x0F = 0) ∧
    (∀ reg value, (cpuOpXor reg value f).2 &&& 0x0F = 0) ∧
    (∀ reg value, (cpuOpOr reg value f).2 &&& 0x0F = 0) ∧
    (∀ reg value, cpuOpCompare reg value f &&& 0x0F = 0) ∧
    (∀ reg, (cpuOpIncrement reg f).2 &&& 0x0F = 0) ∧
    (∀ reg, (cpuOpDecrement reg f).2 &&& 0x0F = 0) ∧
    (∀ reg, (cpuOpDecimalAdjust reg f).2 &&& 0x0F = 0) ∧
    (∀ reg, (cpuOpBitwiseComplement reg f).2 &&& 0x0F = 0) ∧
    (cpuOpSetCarryFlag f &&& 0x0F = 0) ∧
    (cpuOpComplementCarryFlag f &&& 0x0F = 0) ∧
    (∀ h l value, (cpuOpAddRR h l value f).2.2 &&& 0x0F = 0) ∧
    (∀ sp value, (cpuOpAddSP sp value f).2 &&& 0x0F = 0) ∧
    (∀ reg, (cpuOpRotateLeft reg f).2 &&& 0x0F = 0) ∧
    (∀ reg, (cpuOpRotateRight reg f).2 &&& 0x0F = 0) ∧
    (∀ reg, (cpuOpRotateLeftCarry reg f).2 &&& 0x0F = 0) ∧
    (∀ reg, (cpuOpRotateRightCarry reg f).2 &&& 0x0F = 0) ∧
    (∀ reg, (cpuOpCBRotateLeftCarry reg f).2 &&& 0x0F = 0) ∧
    (∀ reg, (cpuOpCBRotateRightCarry reg f).2 &&& 0x0F = 0) ∧
    (∀ reg, (cpuOpCBRotateLeft reg f).2 &&& 0x0F = 0) ∧
    (∀ reg, (cpuOpCBRotateRight reg f).2 &&& 0x0F = 0) ∧
    (∀ reg, (cpuOpCBArithmeticShiftLeft reg f).2 &&& 0x0F = 0) ∧
    (∀ reg, (cpuOpCBArithmeticShiftRight reg f).2 &&& 0x0F = 0) ∧
    (∀ reg, (cpuOpCBSwap reg f).2 &&& 0x0F = 0) ∧
    (∀ reg, (cpuOpCBLogicalShiftRight reg f).2 &&& 0x0F = 0) ∧
    (∀ b reg, cpuOpCBBit b reg f &&& 0x0F = 0) ∧
    (∀ value, (setAF value).2 &&& 0x0F = 0) := by
  refine ⟨?_, ?_, ?_, ?_, ?_, ?_, ?_, ?_, ?_, ?_, ?_, ?_, ?_, ?_, ?_, ?_,
    ?_, ?_, ?_, ?_, ?_, ?_, ?_, ?_, ?_, ?_, ?_, ?_⟩
  · intro reg value carry
    simp only [cpuOpAdd]
    exact low4_setCarryFlag _ _ (low4_setHalfCarryFlag _ _
      (low4_setZeroFlag _ _ (low4_clearFlags _ _ hf)))
  · intro reg value carry
    simp only [cpuOpSub]
    exact low4_setCarryFlag _ _ (low4_setHalfCarryFlag _ _
      (low4_setSubtractFlag _ _ (low4_setZeroFlag _ _ hf)))
  · intro reg value
    simp only [cpuOpAnd]
    exact low4_setHalfCarryFlag _ _ (low4_setZeroFlag _ _ (low4_clearFlags _ _ hf))
  · intro reg value
    simp only [cpuOpXor]
    exact low4_setZeroFlag _ _ (low4_clearFlags _ _ hf)
  · intro reg value
    simp only [cpuOpOr]
    exact low4_setZeroFlag _ _ (low4_clearFlags _ _ hf)
  · intro reg value
    simp only [cpuOpCompare, cpuOpSub]
    exact low4_setCarryFlag _ _ (low4_setHalfCarryFlag _ _
      (low4_setSubtractFlag _ _ (low4_setZeroFlag _ _ hf)))
  · intro reg
    simp only [cpuOpIncrement]
    exact low4_setHalfCarryFlag _ _ (low4_setZeroFlag _ _ (low4_clearFlags _ _ hf))
  · intro reg
    simp only [cpuOpDecrement]
    exact low4_setHalfCarryFlag _ _ (low4_setZeroFlag _ _
      (low4_setSubtractFlag _ _ (low4_clearFlags _ _ hf)))
  · intro reg
    simp only [cpuOpDecimalAdjust]
    exact low4_setCarryFlag _ _ (low4_setZeroFlag _ _ (low4_clearFlags _ _ hf))
  · intro reg
    simp only [cpuOpBitwiseComplement]
    exact low4_setHalfCarryFlag _ _ (low4_setSubtractFlag _ _ hf)
  · simp only [cpuOpSetCarryFlag]
    exact low4_setCarryFlag _ _ (low4_clearFlags _ _ hf)
  · simp only [cpuOpComplementCarryFlag]
    exact low4_setCarryFlag _ _ (low4_clearFlags _ _ hf)
  · intro h l value
    simp only [cpuOpAddRR]
    exact low4_setCarryFlag _ _ (low4_setHalfCarryFlag _ _
      (low4_setSubtractFlag _ _ hf))
  · intro sp value
    simp only [cpuOpAddSP]
    exact low4_setCarryFlag _ _ (low4_setHalfCarryFlag _ _ (low4_clearFlags _ _ hf))
  · intro reg
    simp only [cpuOpRotateLeft]
    exact low4_setCarryFlag _ _ (low4_clearFlags _ _ hf)
  · intro reg
    simp only [cpuOpRotateRight]
    exact low4_setCarryFlag _ _ (low4_clearFlags _ _ hf)
  · intro reg
    simp only [cpuOpRotateLeftCarry]
    exact low4_setCarryFlag _ _ (low4_clearFlags _ _ hf)
  · intro reg
    simp only [cpuOpRotateRightCarry]
    exact low4_setCarryFlag _ _ (low4_clearFlags _ _ hf)
  · intro reg
    simp only [cpuOpCBRotateLeftCarry]
    exact low4_setZeroFlag _ _ (low4_setCarryFlag _ _ (low4_clearFlags _ _ hf))
  · intro reg
    simp only [cpuOpCBRotateRightCarry]
    exact low4_setZeroFlag _ _ (low4_setCarryFlag _ _ (low4_clearFlags _ _ hf))
  · intro reg
    simp only [cpuOpCBRotateLeft]
    exact low4_setZeroFlag _ _ (low4_setCarryFlag _ _ (low4_clearFlags _ _ hf))
  · intro reg
    simp only [cpuOpCBRotateRight]
    exact low4_setZeroFlag _ _ (low4_setCarryFlag _ _ (low4_clearFlags _ _ hf))
  · intro reg
    simp only [cpuOpCBArithmeticShiftLeft]
    exact low4_setZeroFlag _ _ (low4_setCarryFlag _ _ (low4_clearFlags _ _ hf))
  · intro reg
    simp only [cpuOpCBArithmeticShiftRight]
    exact low4_setZeroFlag _ _ (low4_setCarryFlag _ _ (low4_clearFlags _ _ hf))
  · intro reg
    simp only [cpuOpCBSwap]
    exact low4_setZeroFlag _ _ (low4_clearFlags _ _ hf)
  · intro reg
    simp only [cpuOpCBLogicalShiftRight]
    exact low4_setZeroFlag _ _ (low4_setCarryFlag _ _ (low4_clearFlags _ _ hf))
  · intro b reg
    simp only [cpuOpCBBit]
    exact low4_setHalfCarryFlag _ _ (low4_setZeroFlag _ _ (low4_clearFlags _ _ hf))
  · intro value
    show (value &&& 0xf0) &&& 15 = 0
    have h0 : (0xf0 : Nat) &&& 15 = 0 := by decide
    rw [Nat.and_assoc, h0, Nat.and_zero]

/-- Witness for `flagsLowNibbleZero` at the post-boot flags byte `F = 0xB0`. -/
theorem flagsLowNibbleZero_witness :
    (0xB0 : Nat) &&& 0x0F = 0 ∧ (cpuOpAdd 0x45 0x38 false 0xB0).2 &&& 0x0F = 0 :=
  ⟨by decide, (flagsLowNibbleZero 0xB0 (by decide)).1 0x45 0x38 false⟩

/-- Claim C3: evaluation at `SP = 0x00FF`, `e8 = +1`, `F = 0xF0`.  The
half-carry and carry the claim requires (carry out of bit 3 resp. bit 7,
both set for this input, giving `F = 0x30`) are not produced: the code
tests `rh > 0x0fff` (bit-11 carry) and `rn > 0xffff` (bit-15 carry) and
yields `F = 0x00`; and the `LD HL,SP+e8` dispatch case writes `HL` without
touching `F`, so `F` stays `0xF0` with `Z` still set. -/
theorem addSPFlagsUseHighBits :
    cpuOpAddSP 0x00FF 1 0xF0 = (0x0100, 0x00) ∧
    cpuCase0xF8 0x00FF 1 0xF0 = (0x01, 0x00, 0xF0) ∧
    (0x00 : Nat) ≠ 0x30 ∧
    (cpuCase0xF8 0x00FF 1 0xF0).2.2 &&& zeroFlag ≠ 0 := by
  refine ⟨by decide, by decide, by decide, by decide⟩

/-- Claim C4 counterexample: executing HALT with `IE & 0x1F = 1 ≠ 0` both
enters the halt state and performs the extra `PC` increment, contradicting
the claim that the increment only happens in the `IE & 0x1F == 0` case. -/
theorem haltAlwaysSkips_counterexample :
    (cpuOpHalt 0x0100 0x01 false).2 = true ∧
    (cpuOpHalt 0x0100 0x01 false).1 ≠ 0x0100 := by
  refine ⟨by decide, by decide⟩

/-- Claim C4 (amended): `cpuOpHalt` increments `PC` unconditionally (the
increment precedes the `IE & 0x1F` test); it enters the halt state exactly
when `IE & 0x1F != 0`, and otherwise leaves the halt flag as it was
(the next-instruction-skip glitch path). -/
theorem haltSemantics (pc ie : Nat) (halt : Bool) :
    (cpuOpHalt pc ie halt).1 = (pc + 1) % 65536 ∧
    (cpuOpHalt pc ie halt).2 = (if ie &&& 0x1f = 0 then halt else true) := by
  unfold cpuOpHalt
  by_cases h : ie &&& 0x1f = 0 <;> simp [h]

/-- Claim C7 counterexample: after `ADD A,B` with `A=0x45`, `B=0x38`,
`F=0x00`, the flags byte is `0x00`, not `0x20`: the nibble sum
`0x5 + 0x8 = 0xD` does not carry out of bit 3, so the half-carry flag is
not set. -/
theorem addDaaScenario_counterexample :
    (cpuOpAdd 0x45 0x38 false 0x00).2 ≠ 0x20 := by
  decide

/-- Claim C7 (amended): from `A=0x45`, `B=0x38`, `F=0x00`, `ADD A,B`
yields `A=0x7D` with `F=0x00` (no half-carry), and `DAA` then yields
`A=0x83` with `F=0x00`. -/
theorem addDaaScenario :
    cpuOpAdd 0x45 0x38 false 0x00 = (0x7D, 0x00) ∧
    cpuOpDecimalAdjust 0x7D 0x00 = (0x83, 0x00) := by
  refine ⟨by decide, by decide⟩

/-- Pointwise update of a byte store modelled as a total function. -/
def memUpdate (m : Nat → Nat) (a v : Nat) : Nat → Nat :=
  fun x => if x = a then v else m x

/-- The CPU-side state touched by interrupt servicing (cpu.go).  The
memory bus reached through `gb.Write` during the push is modelled as a
total byte store. -/
structure IntState where
  pc : Nat
  sp : Nat
  irq : Nat
  ie : Nat
  ime : Bool
  halt : Bool
  mem : Nat → Nat

/-- cpu.go `cpuPush`: `sp--` twice (wrapping on `uint16`), writing the
high byte first. -/
def cpuPush (st : IntState) (dword : Nat) : IntState :=
  let sp1 := (st.sp + 65535) % 65536
  let mem1 := memUpdate st.mem sp1 ((dword >>> 8) &&& 255)
  let sp2 := (sp1 + 65535) % 65536
  let mem2 := memUpdate mem1 sp2 (dword &&& 255)
  { st with sp := sp2, mem := mem2 }

/-- cpu.go `cpuInterrupt`: clear `IME`, push `PC`, jump to the vector. -/
def cpuInterrupt (st : IntState) (vector : Nat) : IntState :=
  let st1 : IntState := { st with ime := false }
  let st2 := cpuPush st1 st1.pc
  { st2 with pc := vector }

/-- The five `(flag, vector)` entries of cpu.go `interruptVectorMap`
listed in increasing flag order.  The Go source stores them in a `map`
and iterates it with `range`, whose order is unspecified, so the loop in
`checkInterrupts` may visit these pairs in any permutation. -/
def interruptVectorPairs : List (Nat × Nat) :=
  [(1, 0x0040), (2, 0x0048), (4, 0x0050), (8, 0x0058), (16, 0x0060)]

/-- Body of the `range interruptVectorMap` loop of cpu.go
`checkInterrupts`: service the first visited pair whose flag is pending
and enabled, then return. -/
def serviceLoop (st : IntState) : List (Nat × Nat) → IntState
  | [] => st
  | (flag, vector) :: rest =>
    if st.irq &&& st.ie &&& flag != 0 then
      cpuInterrupt { st with halt := false, irq := st.irq &&& (255 ^^^ flag) } vector
    else serviceLoop st rest

/-- cpu.go `checkInterrupts`, parameterised by the order in which Go's
`range` happens to visit the map entries. -/
def checkInterrupts (order : List (Nat × Nat)) (st : IntState) : IntState :=
  if st.ime then serviceLoop st order else st

/-- The state of claim C1: `IME=1`, `IE=0x1F`, `IRQ=0x1F`, `PC=0x1234`,
`SP=0xFFFE`. -/
def intSt0 : IntState :=
  { pc := 0x1234, sp := 0xFFFE, irq := 0x1F, ie := 0x1F, ime := true,
    halt := false, mem := fun _ => 0 }

/-- Claim C1: with all five interrupts pending and enabled, the serviced
interrupt depends on the order in which `range` visits
`interruptVectorMap`.  Visiting the V-blank entry first gives the
claimed outcome (vector `0x0040`, `IRQ=0x1E`, `IME` cleared, old `PC`
pushed); visiting the Timer entry first instead gives vector `0x0050`
and `IRQ=0x1B`, so the code does not guarantee the fixed V-blank
priority the specification states. -/
theorem interruptOrderDependent :
    (checkInterrupts interruptVectorPairs intSt0).pc = 0x0040 ∧
    (checkInterrupts interruptVectorPairs intSt0).irq = 0x1E ∧
    (checkInterrupts interruptVectorPairs intSt0).ime = false ∧
    (checkInterrupts interruptVectorPairs intSt0).sp = 0xFFFC ∧
    (checkInterrupts interruptVectorPairs intSt0).mem 0xFFFD = 0x12 ∧
    (checkInterrupts interruptVectorPairs intSt0).mem 0xFFFC = 0x34 ∧
    (checkInterrupts
      [(4, 0x0050), (1, 0x0040), (2, 0x0048), (8, 0x0058), (16, 0x0060)]
      intSt0).pc = 0x0050 ∧
    (checkInterrupts
      [(4, 0x0050), (1, 0x0040), (2, 0x0048), (8, 0x0058), (16, 0x0060)]
      intSt0).irq = 0x1B := by
  refine ⟨by decide, by decide, by decide, by decide, by decide, by decide,
    by decide, by decide⟩

/-- The CPU state touched by the memory-mapped register file
(cpu.go `CPU.Write` and `Machine.Interrupt`); `div` is named `divr`. -/
structure CPURegs where
  dpad : Bool
  button : Bool
  divr : Nat
  tima : Nat
  tma : Nat
  timer : Nat
  irq : Nat
  ie : Nat
  dma : Bool
  dmabank : Nat
  dmaindex : Nat
  halt : Bool
  hram : Nat → Nat

/-- cpu.go `CPU.Write`: the memory-mapped register write dispatch. -/
def CPURegs.Write (cpu : CPURegs) (addr value : Nat) : CPURegs :=
  if addr = 0xFF00 then
    { cpu with dpad := getBit (255 ^^^ value) 4, button := getBit (255 ^^^ value) 5 }
  else if addr = 0xFF04 then { cpu with divr := 0 }
  else if addr = 0xFF05 then { cpu with tima := value }
  else if addr = 0xFF06 then { cpu with tma := value }
  else if addr = 0xFF07 then { cpu with timer := value }
  else if addr = 0xFF0F then { cpu with irq := value }
  else if addr = 0xFF46 then { cpu with dma := true, dmabank := value, dmaindex := 0 }
  else if 0xFF80 ≤ addr ∧ addr < 0xFFFF then
    { cpu with hram := memUpdate cpu.hram (addr &&& 0x7F) value }
  else if addr = 0xFFFF then { cpu with ie := value &&& 0x1f }
  else cpu

/-- cpu.go `Machine.Interrupt`: wake from halt when enabled, then
`irq |= i`. -/
def interruptRequest (cpu : CPURegs) (i : Nat) : CPURegs :=
  let cpu1 := if cpu.ie &&& i != 0 then { cpu with halt := false } else cpu
  { cpu1 with irq := cpu1.irq ||| i }

/-- A concrete reset-like CPU register-file state. -/
def cpuRegs0 : CPURegs :=
  { dpad := false, button := false, divr := 0, tima := 0, tma := 0, timer := 0,
    irq := 0, ie := 0, dma := false, dmabank := 0, dmaindex := 0, halt := false,
    hram := fun _ => 0 }

/-- Claim C6 counterexample: writing `0xFF` to `0xFF0F` stores the byte
unmasked, so afterwards `IRQ & 0x1F != IRQ`. -/
theorem irqMaskInvariant_counterexample :
    (cpuRegs0.Write 0xFF0F 0xFF).irq &&& 0x1F ≠ (cpuRegs0.Write 0xFF0F 0xFF).irq := by
  decide

/-- Claim C6 (amended): after any register write, `IE & 0x1F == IE` is
preserved (the `0xFFFF` case masks the stored value); `IRQ & 0x1F == IRQ`
is preserved by `Machine.Interrupt` for the five masked interrupt bits,
but a write to `0xFF0F` stores its byte without masking, so the `IRQ`
invariant holds after such a write only when the written value itself has
no bits above `0x1F`. -/
theorem ieMaskInvariant (cpu : CPURegs) (addr value : Nat)
    (hie : cpu.ie &&& 0x1F = cpu.ie) :
    ((cpu.Write addr value).ie &&& 0x1F = (cpu.Write addr value).ie) ∧
    ((cpu.Write 0xFF0F value).irq = value) ∧
    (∀ i, cpu.irq &&& 0x1F = cpu.irq → i &&& 0x1F = i →
      (interruptRequest cpu i).irq &&& 0x1F = (interruptRequest cpu i).irq) := by
  have h31 : (0x1F : Nat) &&& 0x1F = 0x1F := by decide
  refine ⟨?_, ?_, ?_⟩
  · unfold CPURegs.Write
    split_ifs <;> first | exact hie | (rw [Nat.and_assoc, h31])
  · simp [CPURegs.Write]
  · intro i hirq hi
    unfold interruptRequest
    split_ifs <;> rw [Nat.and_distrib_right, hirq, hi]

/-- Witness for `ieMaskInvariant` at a concrete state and write. -/
theorem ieMaskInvariant_witness :
    cpuRegs0.ie &&& 0x1F = cpuRegs0.ie ∧
    ((cpuRegs0.Write 0xFF05 0x77).ie &&& 0x1F = (cpuRegs0.Write 0xFF05 0x77).ie) :=
  ⟨by decide, (ieMaskInvariant cpuRegs0 0xFF05 0x77 (by decide)).1⟩

/-- mem.go `MBC1Cartridge`: ROM and external RAM plus the banking
registers. -/
structure MBC1Cartridge where
  rom : List Nat
  ram : List Nat
  enableram : Bool
  rombank : Nat
  rambank : Nat

/-- mem.go `NewMBC1Cartridge`: fresh cartridge with 8 KiB of RAM. -/
def NewMBC1Cartridge (rom : List Nat) : MBC1Cartridge :=
  { rom := rom, ram := List.replicate 0x2000 0, enableram := false,
    rombank := 0, rambank := 0 }

/-- mem.go `MBC1Cartridge.Read`.  In the external-RAM case the source's
bounds test compares `addr` itself (not `ramaddr`) against `len(cart.ram)`
and falls through to the `0xff` default when it fails; `enableram` is not
consulted anywhere on the read path. -/
def MBC1Cartridge.Read (cart : MBC1Cartridge) (addr : Nat) : Nat :=
  if addr < 0x4000 then
    if addr ≥ cart.rom.length then 0xff else cart.rom.getD addr 0
  else if addr < 0x8000 then
    let romaddr := addr &&& 0x3fff
    let bank := if cart.rombank &&& 0x1f = 0 then cart.rombank + 1 else cart.rombank
    let romaddr2 := romaddr + (bank <<< 14)
    if romaddr2 ≥ cart.rom.length then 0xff else cart.rom.getD romaddr2 0
  else if 0xa000 ≤ addr ∧ addr < 0xc000 then
    let ramaddr := (addr &&& 0x1fff) + (cart.rambank <<< 13)
    if addr ≥ cart.ram.length then 0xff else cart.ram.getD ramaddr 0
  else 0xff

/-- mem.go `MBC1Cartridge.Write`: only the RAM-enable and ROM-bank ranges
have cases; all other writes (including `0xA000-0xBFFF`) fall through and
change nothing. -/
def MBC1Cartridge.Write (cart : MBC1Cartridge) (addr value : Nat) : MBC1Cartridge :=
  if addr < 0x2000 then { cart with enableram := value &&& 0xf == 0xa }
  else if addr < 0x4000 then { cart with rombank := value }
  else cart

/-- While the RAM list has its constructed 8 KiB length, every read in
`0xA000-0xBFFF` returns `0xFF`, enabled or not. -/
theorem mbc1RamReadAlwaysFF (cart : MBC1Cartridge) (addr : Nat)
    (hlen : cart.ram.length = 0x2000) (h1 : 0xa000 ≤ addr) (h2 : addr < 0xc000) :
    cart.Read addr = 0xff := by
  unfold MBC1Cartridge.Read
  have hn1 : ¬ addr < 0x4000 := by omega
  have hn2 : ¬ addr < 0x8000 := by omega
  rw [if_neg hn1, if_neg hn2, if_pos ⟨h1, h2⟩, if_pos (by omega)]

/-- Claim C5: enabling RAM (write `0x0A` to `0x0000`), then writing
`0x42` to `0xA000` and reading `0xA000` back.  The enable write does set
`enableram`, but the data write is dropped (no `Write` case covers the
RAM range) and the read returns `0xFF` even while RAM is enabled, because
the read-path bounds test compares `addr` (`0xA000`) against
`len(cart.ram)` (`0x2000`) instead of `ramaddr`. -/
theorem mbc1RamUnreachable :
    ((NewMBC1Cartridge []).Write 0x0000 0x0A).enableram = true ∧
    ((NewMBC1Cartridge []).Write 0x0000 0x0A).Write 0xA000 0x42 =
      (NewMBC1Cartridge []).Write 0x0000 0x0A ∧
    (((NewMBC1Cartridge []).Write 0x0000 0x0A).Write 0xA000 0x42).Read 0xA000 = 0xFF ∧
    (0xFF : Nat) ≠ 0x42 := by
  have hlen :
      ((((NewMBC1Cartridge []).Write 0x0000 0x0A).Write 0xA000 0x42)).ram.length
        = 0x2000 := by
    show (List.replicate 0x2000 (0 : Nat)).length = 0x2000
    rw [List.length_replicate]
  refine ⟨rfl, rfl, ?_, by decide⟩
  exact mbc1RamReadAlwaysFF _ 0xA000 hlen (by decide) (by decide)

/-- cpu.go `cpuDispatchCB`, operand selection and transformation: the
operand value and flags produced by the `op & 0xF8` switch, with
`bit := (op / 8) % 8`. -/
def cbTransform (op : Nat) (val f : Nat) : Nat × Nat :=
  let b := (op / 8) % 8
  match op &&& 0xF8 with
  | 0x00 => cpuOpCBRotateLeftCarry val f
  | 0x08 => cpuOpCBRotateRightCarry val f
  | 0x10 => cpuOpCBRotateLeft val f
  | 0x18 => cpuOpCBRotateRight val f
  | 0x20 => cpuOpCBArithmeticShiftLeft val f
  | 0x28 => cpuOpCBArithmeticShiftRight val f
  | 0x30 => cpuOpCBSwap val f
  | 0x38 => cpuOpCBLogicalShiftRight val f
  | 0x40 | 0x48 | 0x50 | 0x58 | 0x60 | 0x68 | 0x70 | 0x78 =>
    (val, cpuOpCBBit b val f)
  | 0x80 | 0x88 | 0x90 | 0x98 | 0xA0 | 0xA8 | 0xB0 | 0xB8 =>
    (cpuOpCBBitReset b val, f)
  | 0xC0 | 0xC8 | 0xD0 | 0xD8 | 0xE0 | 0xE8 | 0xF0 | 0xF8 =>
    (cpuOpCBBitSet b val, f)
  | _ => (val, f)

/-- Register file and memory visible to the CB dispatcher. -/
structure CBState where
  b : Nat
  c : Nat
  d : Nat
  e : Nat
  h : Nat
  l : Nat
  a : Nat
  f : Nat
  mem : Nat → Nat

/-- Result of one CB dispatch: the new state, the list of memory writes
performed, and the number of machine cycles consumed inside the dispatch
(`fetchAt` and `writeAt` each step one cycle). -/
structure CBResult where
  st : CBState
  writes : List (Nat × Nat)
  cycles : Nat

/-- cpu.go `cpuDispatchCB`: select the operand cell by `op % 8` (case 6
reads the byte at `HL`, costing a cycle), apply the `op & 0xF8` switch,
and for case 6 write the operand byte back to `HL` (costing another
cycle) -- unconditionally, including for BIT, which does not change it. -/
def cpuDispatchCB (op : Nat) (st : CBState) : CBResult :=
  let hl := (st.h <<< 8) ||| st.l
  match op % 8 with
  | 0 =>
    let r := cbTransform op st.b st.f
    { st := { st with b := r.1, f := r.2 }, writes := [], cycles := 0 }
  | 1 =>
    let r := cbTransform op st.c st.f
    { st := { st with c := r.1, f := r.2 }, writes := [], cycles := 0 }
  | 2 =>
    let r := cbTransform op st.d st.f
    { st := { st with d := r.1, f := r.2 }, writes := [], cycles := 0 }
  | 3 =>
    let r := cbTransform op st.e st.f
    { st := { st with e := r.1, f := r.2 }, writes := [], cycles := 0 }
  | 4 =>
    let r := cbTransform op st.h st.f
    { st := { st with h := r.1, f := r.2 }, writes := [], cycles := 0 }
  | 5 =>
    let r := cbTransform op st.l st.f
    { st := { st with l := r.1, f := r.2 }, writes := [], cycles := 0 }
  | 6 =>
    let r := cbTransform op (st.mem hl) st.f
    { st := { st with f := r.2, mem := memUpdate st.mem hl r.1 },
      writes := [(hl, r.1)], cycles := 2 }
  | _ =>
    let r := cbTransform op st.a st.f
    { st := { st with a := r.1, f := r.2 }, writes := [], cycles := 0 }

/-- Every opcode in the BIT rows lands in one of the eight `0x40`-range
switch groups. -/
theorem cbBitGroup (op : Nat) (h1 : 0x40 ≤ op) (h2 : op < 0x80) :
    op &&& 0xF8 = 0x40 ∨ op &&& 0xF8 = 0x48 ∨ op &&& 0xF8 = 0x50 ∨
    op &&& 0xF8 = 0x58 ∨ op &&& 0xF8 = 0x60 ∨ op &&& 0xF8 = 0x68 ∨
    op &&& 0xF8 = 0x70 ∨ op &&& 0xF8 = 0x78 := by
  interval_cases op <;> decide

/-- A BIT opcode leaves the operand value unchanged. -/
theorem cbTransformBitKeepsVal (op val f : Nat)
    (h1 : 0x40 ≤ op) (h2 : op < 0x80) : (cbTransform op val f).1 = val := by
  rcases cbBitGroup op h1 h2 with h | h | h | h | h | h | h | h <;>
    simp [cbTransform, h]

/-- Claim C9: for any CB opcode whose operand field selects `(HL)`
(`op % 8 = 6`), the dispatcher reads the byte at `HL`, writes the
transformed operand byte back to `HL` (one write, one extra cycle beyond
the read, two cycles total), and for the BIT rows (`0x40..0x7F`) the byte
written back equals the byte read. -/
theorem cbMemOperandWritesBack (op : Nat) (st : CBState)
    (hop : op % 8 = 6) (_hlt : op < 256) :
    (cpuDispatchCB op st).writes =
      [(((st.h <<< 8) ||| st.l),
        (cbTransform op (st.mem ((st.h <<< 8) ||| st.l)) st.f).1)] ∧
    (cpuDispatchCB op st).cycles = 2 ∧
    (cpuDispatchCB op st).st.mem =
      memUpdate st.mem ((st.h <<< 8) ||| st.l)
        (cbTransform op (st.mem ((st.h <<< 8) ||| st.l)) st.f).1 ∧
    (0x40 ≤ op → op < 0x80 →
      (cpuDispatchCB op st).writes =
        [(((st.h <<< 8) ||| st.l), st.mem ((st.h <<< 8) ||| st.l))]) := by
  refine ⟨?_, ?_, ?_, ?_⟩
  · simp only [cpuDispatchCB, hop]
  · simp only [cpuDispatchCB, hop]
  · simp only [cpuDispatchCB, hop]
  · intro h1 h2
    simp only [cpuDispatchCB, hop]
    rw [cbTransformBitKeepsVal op _ _ h1 h2]

/-- A concrete state for the `cbMemOperandWritesBack` witness. -/
def cbSt0 : CBState :=
  { b := 0, c := 0, d := 0, e := 0, h := 0x12, l := 0x34, a := 0, f := 0,
    mem := fun _ => 0xAA }

/-- Witness for `cbMemOperandWritesBack` at opcode `0x7E` (BIT 7,(HL)). -/
theorem cbMemOperandWritesBack_witness :
    (0x7E : Nat) % 8 = 6 ∧ (0x7E : Nat) < 256 ∧
    ((cpuDispatchCB 0x7E cbSt0).writes =
      [(((cbSt0.h <<< 8) ||| cbSt0.l),
        (cbTransform 0x7E (cbSt0.mem ((cbSt0.h <<< 8) ||| cbSt0.l)) cbSt0.f).1)] ∧
    (cpuDispatchCB 0x7E cbSt0).cycles = 2 ∧
    (cpuDispatchCB 0x7E cbSt0).st.mem =
      memUpdate cbSt0.mem ((cbSt0.h <<< 8) ||| cbSt0.l)
        (cbTransform 0x7E (cbSt0.mem ((cbSt0.h <<< 8) ||| cbSt0.l)) cbSt0.f).1 ∧
    (0x40 ≤ (0x7E : Nat) → (0x7E : Nat) < 0x80 →
      (cpuDispatchCB 0x7E cbSt0).writes =
        [(((cbSt0.h <<< 8) ||| cbSt0.l), cbSt0.mem ((cbSt0.h <<< 8) ||| cbSt0.l))])) :=
  ⟨by decide, by decide, cbMemOperandWritesBack 0x7E cbSt0 (by decide) (by decide)⟩


/-- ppu.go `rgbColors`: the fixed four-entry ARGB palette. -/
def rgbColors (i : Nat) : Nat :=
  match i with
  | 0 => 0xFFD7E894
  | 1 => 0xFFAEC440
  | 2 => 0xFF527F39
  | 3 => 0xFF204631
  | _ => 0

/-- ppu.go `Object`: one cached sprite; the fields hold Go `uint` values
(reduced mod 2^64 where subtraction can wrap). -/
structure Object where
  x : Nat
  y : Nat
  tile : Nat
  attr : Nat
  data : Nat

/-- ppu.go `PPU`: the display controller state.  Byte arrays are
modelled as total functions; `obp [2][4]` is split into `obp0`/`obp1`;
`div`-style counters keep their source names. -/
structure PPU where
  vram : Nat → Nat
  oam : Nat → Nat
  bgp : Nat → Nat
  obp0 : Nat → Nat
  obp1 : Nat → Nat
  bgpd : Nat → Nat
  obpd : Nat → Nat
  bgColor : Nat
  bgPalette : Nat
  bgPriority : Nat
  fgColor : Nat
  fgPalette : Nat
  fgPriority : Nat
  clock : Int
  lx : Nat
  screen : Nat → Nat
  objects : Nat → Object
  numObjects : Nat
  lcdDisplayEnable : Bool
  windowTilemapEnable : Bool
  windowDisplayEnable : Bool
  bgTileDataSelect : Bool
  bgTileMapSelect : Bool
  objSize : Bool
  objDisplay : Bool
  bgDisplay : Bool
  lycInterrupt : Bool
  oamInterrupt : Bool
  vblankInterrupt : Bool
  hblankInterrupt : Bool
  modeHi : Bool
  modeLo : Bool
  scrollY : Nat
  scrollX : Nat
  ly : Nat
  lyComp : Nat
  dmaAddr : Nat
  dmaEnable : Bool
  dmaClock : Nat
  winYPos : Nat
  winXPos : Nat
  backgroundData : Nat
  backgroundAttr : Nat
  windowData : Nat
  windowAttr : Nat

/-- ppu.go `setLCDControlReg`. -/
def PPU.setLCDControlReg (ppu : PPU) (value : Nat) : PPU :=
  { ppu with
    lcdDisplayEnable := getBit value 7
    windowTilemapEnable := getBit value 6
    windowDisplayEnable := getBit value 5
    bgTileDataSelect := getBit value 4
    bgTileMapSelect := getBit value 3
    objSize := getBit value 2
    objDisplay := getBit value 1
    bgDisplay := getBit value 0 }

/-- ppu.go `setLCDStatusReg`. -/
def PPU.setLCDStatusReg (ppu : PPU) (v : Nat) : PPU :=
  { ppu with
    lycInterrupt := v &&& (1 <<< 6) != 0
    oamInterrupt := v &&& (1 <<< 5) != 0
    vblankInterrupt := v &&& (1 <<< 4) != 0
    hblankInterrupt := v &&& (1 <<< 3) != 0
    modeHi := v &&& (1 <<< 1) != 0
    modeLo := v &&& (1 <<< 0) != 0 }

/-- ppu.go `PPU.Write`: the PPU-side register and memory write dispatch.
A write to `0xFF44` discards the value and resets `ly`, `lx` and the PPU
clock. -/
def PPU.Write (ppu : PPU) (addr value : Nat) : PPU :=
  if 0x8000 ≤ addr ∧ addr < 0xA000 then
    { ppu with vram := memUpdate ppu.vram (addr &&& 0x1fff) value }
  else if 0xFE00 ≤ addr ∧ addr < 0xFEA0 then
    { ppu with oam := memUpdate ppu.oam (addr - 0xFE00) value }
  else if addr = 0xFF40 then ppu.setLCDControlReg value
  else if addr = 0xFF41 then ppu.setLCDStatusReg value
  else if addr = 0xFF42 then { ppu with scrollY := value }
  else if addr = 0xFF43 then { ppu with scrollX := value }
  else if addr = 0xFF44 then { ppu with ly := 0, lx := 0, clock := 0 }
  else if addr = 0xFF45 then { ppu with lyComp := value }
  else if addr = 0xFF47 then
    { ppu with bgp :=
        memUpdate (memUpdate (memUpdate (memUpdate ppu.bgp
          0 ((value >>> 0) &&& 3)) 1 ((value >>> 2) &&& 3))
          2 ((value >>> 4) &&& 3)) 3 ((value >>> 6) &&& 3) }
  else if addr = 0xFF48 then
    { ppu with obp0 :=
        memUpdate (memUpdate (memUpdate (memUpdate ppu.obp0
          0 ((value >>> 0) &&& 3)) 1 ((value >>> 2) &&& 3))
          2 ((value >>> 4) &&& 3)) 3 ((value >>> 6) &&& 3) }
  else if addr = 0xFF49 then
    { ppu with obp1 :=
        memUpdate (memUpdate (memUpdate (memUpdate ppu.obp1
          0 ((value >>> 0) &&& 3)) 1 ((value >>> 2) &&& 3))
          2 ((value >>> 4) &&& 3)) 3 ((value >>> 6) &&& 3) }
  else if addr = 0xFF4A then { ppu with winYPos := value }
  else if addr = 0xFF4B then { ppu with winXPos := value }
  else ppu

/-- Go's `int8` reinterpretation of a byte. -/
def int8 (v : Nat) : Int :=
  if v < 128 then (v : Int) else (v : Int) - 256

/-- ppu.go `readTileLine`: fetch the 16-bit tile pattern line for pixel
`(x, y)` from the selected tile map. -/
def PPU.readTileLine (ppu : PPU) (sel : Bool) (x y : Nat) : Nat :=
  let tileMapBase : Nat := if sel then 0x1C00 else 0x1800
  let tileX := x / 8
  let tileY := y / 8
  let tileMapAddr := tileMapBase + (((tileY <<< 5) + tileX) &&& 0x03FF)
  let tileDataAddr : Nat :=
    if ppu.bgTileDataSelect then
      0x0000 + (ppu.vram tileMapAddr <<< 4) + ((y &&& 0x7) <<< 1)
    else
      ((0x1000 + int8 (ppu.vram tileMapAddr) * 16) % (uintMod : Int)).toNat
        + ((y &&& 0x7) <<< 1)
  (ppu.vram tileDataAddr) ||| ((ppu.vram (tileDataAddr + 1)) <<< 8)

/-- One iteration of the sprite loop in ppu.go `pixel`: sprite `n` either
keeps the running `(fgColor, fgPalette)` pair (out of range horizontally,
or transparent) or overwrites it. -/
def processObject (ppu : PPU) (n : Nat) (acc : Nat × Nat) : Nat × Nat :=
  let s := ppu.objects n
  let scrollBit := (ppu.lx + uintMod - (s.x % uintMod)) % uintMod
  if scrollBit > 7 then acc
  else
    let index : Nat :=
      (if s.data &&& (0x0080 >>> scrollBit) != 0 then 1 else 0) |||
      (if s.data &&& (0x8000 >>> scrollBit) != 0 then 2 else 0)
    if index = 0 then acc
    else ((if s.attr &&& 0x10 != 0 then ppu.obp1 index else ppu.obp0 index), index)

/-- The sprite loop of ppu.go `pixel`: iterate `n` from
`numObjects - 1` down to `0`, later iterations overwriting earlier
ones. -/
def objectLoop (ppu : PPU) : Nat → Nat × Nat → Nat × Nat
  | 0, acc => acc
  | Nat.succ k, acc => objectLoop ppu k (processObject ppu k acc)

/-- The priority/transparency resolution at the end of ppu.go `pixel`. -/
def composePixel (fgPal bgPal fgPrio fgCol bgCol : Nat) : Nat :=
  if fgPal = 0 then bgCol
  else if bgPal = 0 then fgCol
  else if fgPrio ≠ 0 then fgCol
  else bgCol

/-- ppu.go `pixel`: compose the pixel at column `lx` of scanline `ly`
and store the ARGB colour into the frame buffer.  Note the sprite loop
writes `fgColor` and `fgPalette` but never `fgPriority`, which only the
final composition reads. -/
def PPU.pixel (ppu0 : PPU) : PPU :=
  let ppu1 := { ppu0 with bgColor := 0, bgPalette := 0, fgColor := 0, fgPalette := 0 }
  let ppu2 :=
    if ppu1.bgDisplay then
      let scrolly := ((ppu1.ly + ppu1.scrollY) % 256) &&& 0xFF
      let scrollx := (ppu1.scrollX + ppu1.lx) &&& 0xFF
      let scrollBit := scrollx &&& 0x7
      let bgData :=
        if scrollBit == 0 || ppu1.lx == 0 then
          ppu1.readTileLine ppu1.bgTileMapSelect scrollx scrolly
        else ppu1.backgroundData
      let index : Nat :=
        (if bgData &&& (0x0080 >>> scrollBit) != 0 then 1 else 0) |||
        (if bgData &&& (0x8000 >>> scrollBit) != 0 then 2 else 0)
      { ppu1 with backgroundData := bgData, bgColor := ppu1.bgp index,
                  bgPalette := index }
    else ppu1
  let ppu3 :=
    if ppu2.windowDisplayEnable then
      let scrolly := (ppu2.ly + uintMod - (ppu2.winYPos % uintMod)) % uintMod
      let scrollx := (ppu2.lx + 7 + uintMod - (ppu2.winXPos % uintMod)) % uintMod
      let scrollBit := scrollx &&& 0x7
      if scrolly < 144 ∧ scrollx < 160 then
        let wData :=
          if scrollBit == 0 || ppu2.lx == 0 then
            ppu2.readTileLine ppu2.windowTilemapEnable scrollx scrolly
          else ppu2.windowData
        let index : Nat :=
          (if wData &&& (0x0080 >>> scrollBit) != 0 then 1 else 0) |||
          (if wData &&& (0x8000 >>> scrollBit) != 0 then 2 else 0)
        { ppu2 with windowData := wData, bgColor := ppu2.bgp index,
                    bgPalette := index }
      else ppu2
    else ppu2
  let ppu4 :=
    if ppu3.objDisplay then
      let r := objectLoop ppu3 ppu3.numObjects (ppu3.fgColor, ppu3.fgPalette)
      { ppu3 with fgColor := r.1, fgPalette := r.2 }
    else ppu3
  let color := composePixel ppu4.fgPalette ppu4.bgPalette ppu4.fgPriority
    ppu4.fgColor ppu4.bgColor
  let screen2 := memUpdate ppu4.screen (ppu4.ly * 160 + ppu4.lx) (rgbColors color)
  { ppu4 with screen := screen2 }


/-- Claim C10: writing any byte to `0xFF44` (LY) resets `ly`, `lx` and
the PPU clock to zero, discards the written value, and changes no other
PPU field. -/
theorem lyWriteResetsCounters (ppu : PPU) (value : Nat) :
    ppu.Write 0xFF44 value = { ppu with ly := 0, lx := 0, clock := 0 } := by
  simp [PPU.Write]

/-- When the `fgPriority` field is zero -- and nothing in the source ever
assigns it -- the final composition picks the background colour whenever
both colour indices are nonzero, regardless of the sprite attributes. -/
theorem composeIgnoresSpritePriority (fgPal bgPal fgCol bgCol : Nat)
    (h1 : fgPal ≠ 0) (h2 : bgPal ≠ 0) :
    composePixel fgPal bgPal 0 fgCol bgCol = bgCol := by
  unfold composePixel
  rw [if_neg h1, if_neg h2, if_neg (by simp)]

/-- A concrete PPU state: background pixel index 3 (colour 3 through an
identity `BGP`), one cached sprite at `x = 0` with pattern `0xFFFF`
(index 3), palette `OBP0` mapping to colour 0, and attribute byte `0` --
in particular the OAM priority bit (0x80) is clear. -/
def ppuC2 : PPU :=
  { vram := fun a => if a = 0 then 0xFF else if a = 1 then 0xFF else 0
    oam := fun _ => 0
    bgp := fun i => i
    obp0 := fun _ => 0
    obp1 := fun _ => 0
    bgpd := fun _ => 0
    obpd := fun _ => 0
    bgColor := 0, bgPalette := 0, bgPriority := 0
    fgColor := 0, fgPalette := 0, fgPriority := 0
    clock := 0, lx := 0
    screen := fun _ => 0
    objects := fun _ => { x := 0, y := 0, tile := 0, attr := 0, data := 0xFFFF }
    numObjects := 1
    lcdDisplayEnable := true
    windowTilemapEnable := false
    windowDisplayEnable := false
    bgTileDataSelect := true
    bgTileMapSelect := false
    objSize := false
    objDisplay := true
    bgDisplay := true
    lycInterrupt := false, oamInterrupt := false, vblankInterrupt := false
    hblankInterrupt := false, modeHi := false, modeLo := false
    scrollY := 0, scrollX := 0, ly := 0, lyComp := 0
    dmaAddr := 0, dmaEnable := false, dmaClock := 0
    winYPos := 0, winXPos := 0
    backgroundData := 0, backgroundAttr := 0, windowData := 0, windowAttr := 0 }

/-- Claim C2: at `ppuC2` the sprite contributes colour index 3 and its
OAM priority bit is clear, the background index is 3 (nonzero), yet the
pixel written to the frame buffer is the background colour
(`0xFF204631`), not the sprite colour (`0xFFD7E894`): the composition
reads the `fgPriority` field, which no assignment in the source ever
sets, so a sprite never covers a nonzero background pixel. -/
theorem spritePriorityFieldNeverSet :
    ppuC2.pixel.screen 0 = 0xFF204631 ∧
    (ppuC2.objects 0).attr &&& 0x80 = 0 ∧
    ppuC2.pixel.fgPalette = 3 ∧
    ppuC2.pixel.bgPalette = 3 ∧
    rgbColors ppuC2.pixel.fgColor = 0xFFD7E894 ∧
    (0xFF204631 : Nat) ≠ 0xFFD7E894 := by
  refine ⟨by decide, by decide, by decide, by decide, by decide, by decide⟩

end Bigboy
